import Mathlib

/-!
# Verification of the cortex-unifi Adaptive Routing & Layer-Activation Engine

Shallow embedding of the routing cascade of
`src/apps/cortex-unifi/src/activator/main.py`, the learning client of
`src/apps/cortex-unifi/src/activator/qdrant_learning.py` and the complexity
scorer of `src/apps/cortex-unifi/src/activator/mode_switching.py`.

Modelling conventions:
* Python floats are modelled as rationals; latencies as naturals where the
  source treats them as integers.
* Query text is a list of characters; `str.lower` is `Char.toLower` mapped
  over the list (queries are assumed newline-free ASCII, matching the regex
  `.`-does-not-match-newline semantics only through the explicit no-newline
  side condition in the `.*` matcher).
* External HTTP interactions (Qdrant search and upserts, layer health
  checks, backend execution calls) are inputs of the model: the environment
  records the observable outcome of each call the code would make.
* Exceptions that the source catches are modelled by the value the handler
  leaves behind; code after a caught exception never sees the raised value.
-/

namespace Cortex

/-! ## Character-list string utilities -/

/-- Lower-case a query, modelling Python `query.lower()` for ASCII text. -/
def lowerQ (q : List Char) : List Char := q.map Char.toLower

/-- `isPre n h` is true when `n` is a leading segment of `h`. -/
def isPre : List Char → List Char → Bool
  | [], _ => true
  | _ :: _, [] => false
  | a :: as, b :: bs => a == b && isPre as bs

/-- True when every character of `l` is not a newline (regex `.` semantics). -/
def noNewline (l : List Char) : Bool := l.all (fun c => c != '\n')

/--
`containsFrom hay start needle` : some occurrence of `needle` begins at a
position `j ≥ start` of `hay`, with only non-newline characters between
`start` and `j`.  This is `re.search` of `.*needle` applied to the suffix of
`hay` that starts at `start`.
-/
def containsFrom (hay : List Char) (start : Nat) (needle : List Char) : Bool :=
  (List.range (hay.length + 1)).any fun j =>
    decide (start ≤ j) && noNewline ((hay.drop start).take (j - start))
      && isPre needle (hay.drop j)

/-- Plain substring containment, modelling Python `needle in hay`. -/
def containsSub (hay needle : List Char) : Bool := containsFrom hay 0 needle

/-! ## Route types — `qdrant_learning.RouteType` -/

/-- `RouteType` enum from `qdrant_learning.py`. -/
inductive RouteType where
  | cache
  | keyword
  | similarity
  | classifier
  | slm
deriving DecidableEq, Repr

/-- The string value of each `RouteType` member. -/
def RouteType.value : RouteType → String
  | .cache => "cache"
  | .keyword => "keyword"
  | .similarity => "similarity"
  | .classifier => "classifier"
  | .slm => "slm"

/-- `RouteType(s)` as a total function: `none` models the `ValueError`
raised by the Python enum constructor on an unknown string. -/
def RouteType.ofString : String → Option RouteType
  | "cache" => some .cache
  | "keyword" => some .keyword
  | "similarity" => some .similarity
  | "classifier" => some .classifier
  | "slm" => some .slm
  | _ => none

/-! ## Routing rules — `main.RoutingRule`, `main.ROUTING_RULES` -/

/--
A routing rule.  Every pattern in `ROUTING_RULES` has the shape
`(w1|w2|...)` or `(w1|w2|...).*(v1|v2|...)` over literal lowercase words, so
the compiled regex is represented by the first alternation `first` and the
optional second alternation `second`.
-/
structure RoutingRule where
  first : List (List Char)
  second : Option (List (List Char))
  tool : String
  execution : String
  requires_confirmation : Bool := false
deriving DecidableEq

/--
`re.search` of the rule pattern in the lowered query `ql`: some alternative
of `first` occurs at a position `i`, and, when a `second` group exists, some
alternative of `second` occurs after the end of that occurrence with no
newline in between (regex `.*`).
-/
def ruleMatches (r : RoutingRule) (ql : List Char) : Bool :=
  (List.range (ql.length + 1)).any fun i =>
    r.first.any fun w =>
      isPre w (ql.drop i) &&
        match r.second with
        | none => true
        | some ws => ws.any fun w2 => containsFrom ql (i + w.length) w2

/-- Shorthand: the character list of a string literal. -/
def w (s : String) : List Char := s.toList

/-- `ROUTING_RULES` from `main.py`, in source order. -/
def ROUTING_RULES : List RoutingRule :=
  [ { first := [w "block", w "unblock"], second := some [w "client"],
      tool := "client_management", execution := "api" },
    { first := [w "list", w "show", w "get"], second := some [w "client"],
      tool := "get_clients", execution := "api" },
    { first := [w "restart", w "reboot"], second := some [w "device"],
      tool := "restart_device", execution := "api", requires_confirmation := true },
    { first := [w "list", w "show", w "get"], second := some [w "device"],
      tool := "get_devices", execution := "api" },
    { first := [w "create", w "add"], second := some [w "network"],
      tool := "create_network", execution := "api", requires_confirmation := true },
    { first := [w "list", w "show", w "get"], second := some [w "network"],
      tool := "get_networks", execution := "api" },
    { first := [w "diagnose", w "troubleshoot", w "debug"], second := none,
      tool := "diagnostics", execution := "ssh" },
    { first := [w "show", w "get"], second := some [w "log", w "logs"],
      tool := "get_logs", execution := "ssh" } ]

/-- `QueryRouter.classify`: first rule whose pattern is found in the
lowercased query. -/
def classify (rules : List RoutingRule) (q : List Char) : Option RoutingRule :=
  rules.find? fun r => ruleMatches r (lowerQ q)

/-- The apostrophe character, written by code point to keep source plain. -/
def apos : Char := Char.ofNat 39

/-- The keyword list of `QueryRouter.needs_reasoning`. -/
def complexity_keywords : List (List Char) :=
  [ w "why", w "investigate", w "analyze", w "figure out",
    w "what" ++ [apos] ++ w "s wrong", w "troubleshoot", w "explain",
    w "help me understand" ]

/-- `QueryRouter.needs_reasoning`: any complexity keyword occurs in the
lowercased query. -/
def needs_reasoning (q : List Char) : Bool :=
  complexity_keywords.any fun kw => containsSub (lowerQ q) kw

/-! ## Qdrant learning layer — `qdrant_learning.py` -/

/-- `QdrantConfig` with the source default values (floats as rationals). -/
structure QdrantConfig where
  similarity_threshold : ℚ := 92 / 100
  confidence_threshold : ℚ := 85 / 100
  min_success_rate : ℚ := 8 / 10
  min_samples : ℕ := 3

/-- The configuration built from defaults (no environment overrides). -/
def defaultConfig : QdrantConfig := {}

/--
The payload of a point of the `routing_queries` collection, as read back
from Qdrant.  Every field the source reads with `payload.get(key, default)`
is an `Option`; `success_rate_adjustment` is the extra key written by
negative feedback in `record_feedback`.
-/
structure Payload where
  query_id : Option String := none
  query_text : Option String := none
  route_type : Option String := none
  tool : Option String := none
  execution_layer : Option String := none
  success_rate : Option ℚ := none
  sample_count : Option ℕ := none
  avg_latency_ms : Option ℚ := none
  success_rate_adjustment : Option ℚ := none
deriving DecidableEq

/-- One entry of the Qdrant search response (`id`, `score`, `payload`). -/
structure SearchResult where
  id : String
  score : ℚ
  payload : Payload
deriving DecidableEq

/-- `SimilarRoute` dataclass. -/
structure SimilarRoute where
  query_id : String
  query_text : String
  similarity : ℚ
  route_type : RouteType
  tool : String
  execution_layer : String
  success_rate : ℚ
  sample_count : ℕ
  avg_latency_ms : ℚ
deriving DecidableEq

/--
Python `x or d` for an optional float `x`: `None` and `0.0` are both falsy,
so either yields the default `d`.  This is the exact semantics of
`min_success = min_success_rate or self.config.min_success_rate`.
-/
def pyOrQ (x : Option ℚ) (d : ℚ) : ℚ :=
  match x with
  | none => d
  | some v => if v = 0 then d else v

/--
The candidate-selection loop of `find_similar_route`: the first result
whose `success_rate ≥ min_success` and `sample_count ≥ min_samples` is
turned into a `SimilarRoute`.  An unknown `route_type` string makes the
enum constructor raise, which the surrounding handler turns into `None`.
-/
def pickFirst (minSuccess : ℚ) (minSamples : ℕ) : List SearchResult → Option SimilarRoute
  | [] => none
  | r :: rest =>
    let sr := r.payload.success_rate.getD 0
    let sc := r.payload.sample_count.getD 0
    if minSuccess ≤ sr ∧ minSamples ≤ sc then
      match RouteType.ofString (r.payload.route_type.getD "similarity") with
      | some rt =>
        some { query_id := r.payload.query_id.getD r.id,
               query_text := r.payload.query_text.getD "",
               similarity := r.score,
               route_type := rt,
               tool := r.payload.tool.getD "",
               execution_layer := r.payload.execution_layer.getD "",
               success_rate := sr,
               sample_count := sc,
               avg_latency_ms := r.payload.avg_latency_ms.getD 0 }
      | none => none
    else pickFirst minSuccess minSamples rest

/--
`QdrantLearningClient.find_similar_route`.  `inited` is the client field
`_initialized`; `searchResp` is the observed outcome of the Qdrant search
call (`Except.error` models a non-200 status or a raised exception, both of
which the source turns into `None`).
-/
def find_similar_route (inited : Bool) (cfg : QdrantConfig)
    (min_success_rate : Option ℚ)
    (searchResp : Except Unit (List SearchResult)) : Option SimilarRoute :=
  if inited = false then none
  else
    let minSuccess := pyOrQ min_success_rate cfg.min_success_rate
    match searchResp with
    | .error _ => none
    | .ok results => pickFirst minSuccess cfg.min_samples results

/--
The statistics update of `QdrantLearningClient._update_routing_stats`
(lines 507-513): online incremental mean over the stored decision stats.
-/
def updated_stats (old_count : ℕ) (old_success_rate old_avg_latency : ℚ)
    (success : Bool) (latency_ms : ℚ) : ℕ × ℚ × ℚ :=
  let new_count := old_count + 1
  let new_success_rate :=
    (old_success_rate * old_count + (if success then 1 else 0)) / new_count
  let new_avg_latency := (old_avg_latency * old_count + latency_ms) / new_count
  (new_count, new_success_rate, new_avg_latency)

/--
The payload patch `record_feedback` applies to the decision point on
negative feedback: it sets the key `success_rate_adjustment` to `-0.1` and
touches nothing else (in particular not `success_rate`).
-/
def apply_negative_feedback (p : Payload) : Payload :=
  { p with success_rate_adjustment := some (-(1 / 10 : ℚ)) }

/-! ## Embedding fallback — `EmbeddingClient._embed_fallback` -/

/-- SHA-384 always produces a digest of 48 bytes; `hashlib.sha384(...).digest()`
is a byte string of this length. -/
def sha384_digest_length : ℕ := 48

/-- The documented embedding dimensionality of the module
(all-MiniLM-L6-v2, 384 dimensions; also the length of the placeholder
vector `[0.0] * 384` in `store_outcome`). -/
def embedding_dim : ℕ := 384

/-- `EmbeddingClient._embed_fallback` applied to the digest bytes: each
byte `b` becomes the float `(b - 128) / 128`. -/
def embed_fallback (digest : List ℕ) : List ℚ :=
  digest.map fun (b : ℕ) => ((b : ℚ) - 128) / 128

/-! ## Complexity scoring — `mode_switching.score_complexity`

The regex feature extraction is abstracted: `PatternHits` records, for each
entry of `COMPLEXITY_PATTERNS`, whether its regex matched the lowercased
query.  Regex matching is a pure function of the text, so determinism of
the scorer reduces to determinism of the arithmetic below, which is a Lean
function and hence deterministic by construction.  The weights, the length
table, the question/context/entity adjustments, the clamp and the level
thresholds are translated from the source verbatim.
-/

/-- `ComplexityLevel` enum. -/
inductive ComplexityLevel where
  | simple
  | moderate
  | complex
  | expert
deriving DecidableEq, Repr

/-- Which of the `COMPLEXITY_PATTERNS` regexes matched the query. -/
structure PatternHits where
  investigate : Bool
  analyze : Bool
  troubleshoot : Bool
  explain_why : Bool
  multi_step : Bool
  compare : Bool
  what_is : Bool
  how_to : Bool
  configure : Bool
  multiple_items : Bool
  conditional : Bool
  list_show : Bool
  simple_action : Bool
  status_check : Bool
deriving DecidableEq

/-- Sum of the weights of the matched patterns (the loop over
`COMPLEXITY_PATTERNS`). -/
def patternScore (h : PatternHits) : ℤ :=
  (if h.investigate then 20 else 0) + (if h.analyze then 18 else 0)
    + (if h.troubleshoot then 22 else 0) + (if h.explain_why then 15 else 0)
    + (if h.multi_step then 18 else 0) + (if h.compare then 15 else 0)
    + (if h.what_is then 8 else 0) + (if h.how_to then 10 else 0)
    + (if h.configure then 12 else 0) + (if h.multiple_items then 10 else 0)
    + (if h.conditional then 12 else 0) + (if h.list_show then -5 else 0)
    + (if h.simple_action then -8 else 0) + (if h.status_check then -5 else 0)

/-- The `LENGTH_SCORES` step table: first threshold with `length ≤ t` wins,
`30` for very long queries (the `for ... else` branch). -/
def lengthAdjustment (length : ℕ) : ℤ :=
  if length ≤ 20 then -10
  else if length ≤ 50 then -5
  else if length ≤ 100 then 0
  else if length ≤ 200 then 5
  else if length ≤ 500 then 15
  else if length ≤ 1000 then 25
  else 30

/-- `(question_count - 1) * 8` extra points when more than one `?`. -/
def questionAdjustment (question_count : ℕ) : ℤ :=
  if question_count > 1 then ((question_count : ℤ) - 1) * 8 else 0

/-- Context-size adjustment; `none` models an absent or empty (falsy)
context dict, `some n` a context whose `len(str(context))` is `n`. -/
def contextAdjustment : Option ℕ → ℤ
  | none => 0
  | some n => (if n > 500 then 10 else 0) + (if n > 2000 then 10 else 0)

/-- `entity_count * 3` when more than two structured entities occur. -/
def entityAdjustment (entity_count : ℕ) : ℤ :=
  if entity_count > 2 then (entity_count : ℤ) * 3 else 0

/-- `max(0, min(100, score))`. -/
def clampScore (s : ℤ) : ℤ := max 0 (min 100 s)

/-- The fixed level thresholds of the source: `≤ 25` simple, `≤ 50`
moderate, `≤ 75` complex, else expert. -/
def level_of (s : ℤ) : ComplexityLevel :=
  if s ≤ 25 then .simple
  else if s ≤ 50 then .moderate
  else if s ≤ 75 then .complex
  else .expert

/--
`score_complexity` over the extracted features: the 50-point baseline plus
the pattern weights, length, question, context and entity adjustments,
clamped to `[0, 100]` and mapped to a level.  The `factors` dict and the
`reasoning` string of the source are observability output and are not
modelled.
-/
def score_complexity (h : PatternHits) (length question_count : ℕ)
    (context_size : Option ℕ) (entity_count : ℕ) : ℤ × ComplexityLevel :=
  let raw := 50 + patternScore h + lengthAdjustment length
    + questionAdjustment question_count + contextAdjustment context_size
    + entityAdjustment entity_count
  let s := clampScore raw
  (s,
    if s ≤ 25 then .simple
    else if s ≤ 50 then .moderate
    else if s ≤ 75 then .complex
    else .expert)

/-! ## Layer manager — `main.LayerManager`

Time is discretised: with `timeout = 60` seconds and `poll_interval = 1`
second, the `wait_for_ready` loop performs one health check per elapsed
second (checks are instantaneous, each sleep advances time by one poll
interval).  `health name k` is the observed result of the `k`-th health
check of `name` during one `ensure_ready` call (`true` iff the GET returned
HTTP 200; transport errors are `false`); check `0` is the initial
`ensure_ready` probe, checks `1, 2, ...` the poll-loop probes.
-/

/-- `LayerState` enum. -/
inductive LayerState where
  | cold
  | warming
  | warm
  | unhealthy
deriving DecidableEq, Repr

/-- The in-memory `self.states` map. -/
def States := String → LayerState

/-- Point update of the states map. -/
def setState (st : States) (name : String) (s : LayerState) : States :=
  fun m => if m = name then s else st m

/-- The names of the `LAYERS` dict in `main.py`. -/
def LAYER_NAMES : List String :=
  [ "reasoning-classifier", "reasoning-slm", "execution-unifi-api",
    "execution-unifi-ssh", "cortex-qdrant", "cortex-telemetry" ]

/-- `self.layers.get(name)` is non-None exactly for configured layers. -/
def knownLayer (name : String) : Bool := LAYER_NAMES.contains name

/--
`LayerManager.check_health` at check index `k`: unknown layer returns
`unhealthy` without touching the map; HTTP 200 records and returns `warm`;
anything else (or a transport error) records and returns `cold`.
-/
def check_health (health : String → ℕ → Bool) (name : String) (k : ℕ)
    (st : States) : LayerState × States :=
  if knownLayer name then
    if health name k then (.warm, setState st name .warm)
    else (.cold, setState st name .cold)
  else (.unhealthy, st)

/--
The poll loop of `wait_for_ready`: at most `fuel` further checks, the next
one having index `k`.  Returns the boolean result, the final states map and
the seconds slept inside the loop (one per completed non-warm iteration).
-/
def waitPoll (health : String → ℕ → Bool) (name : String) :
    ℕ → ℕ → States → Bool × States × ℕ
  | 0, _, st => (false, st, 0)
  | fuel + 1, k, st =>
    let c := check_health health name k st
    if c.1 = .warm then (true, c.2, 0)
    else
      let g := waitPoll health name fuel (k + 1) c.2
      (g.1, g.2.1, g.2.2 + 1)

/--
`LayerManager.wait_for_ready` with `timeout = 60`, `poll_interval = 1.0`:
unknown layer fails immediately; otherwise the state is set to `warming`
and the loop polls until warm or until 60 seconds have elapsed.
-/
def wait_for_ready (health : String → ℕ → Bool) (name : String)
    (st : States) : Bool × States × ℕ :=
  if knownLayer name then
    waitPoll health name 60 1 (setState st name .warming)
  else (false, st, 0)

/--
`LayerManager.ensure_ready`: one fresh health check; `warm` succeeds
immediately, `cold` enters `wait_for_ready`, `unhealthy` (unknown layer)
fails.  The third component is the elapsed poll time in seconds.
-/
def ensure_ready (health : String → ℕ → Bool) (name : String)
    (st : States) : Bool × States × ℕ :=
  let c := check_health health name 0 st
  match c.1 with
  | .warm => (true, c.2, 0)
  | .cold => wait_for_ready health name c.2
  | _ => (false, c.2, 0)

/-! ## The routing cascade — `main.process_query_internal` -/

/-- The `result` dict of a `QueryResponse`: either the JSON body of an
execution-layer call or the wrapper dict built around a reasoning-layer
body. -/
inductive RBody where
  | execBody (body : String)
  | reasoningWrapped (body : String)
deriving DecidableEq

/-- Observable outcome of the backend HTTP call to a layer: the call (or
the `.json()` decode) raised with message `msg`, or it returned a decoded
body with an HTTP status. -/
inductive ExecResult where
  | raises (msg : String)
  | responds (status : ℕ) (body : String)
deriving DecidableEq

/-- `QueryResponse` pydantic model (pure data). -/
structure QueryResponse where
  success : Bool
  result : Option RBody
  error : Option String
  layers_activated : List String
  latency_ms : ℕ
  cold_starts : List String
  query_id : Option String
  route_type : Option RouteType
  route_confidence : ℚ
deriving DecidableEq

/--
State of the `qdrant_learning` client and of the learning-store calls this
query would make.  `inited` is `_initialized`; `searchResp` the outcome of
the Tier-2 search; `findRaises` models an exception escaping the Tier-2
call itself (caught by the tier handler and counted as an error lookup);
`embedRaises`, `storeRoutingOk` and `storeOutcomeOk` are the outcomes of
the decision-store and outcome-store calls, all of whose failures the
source catches and logs.
-/
structure QdrantEnv where
  inited : Bool
  config : QdrantConfig
  searchResp : Except Unit (List SearchResult)
  findRaises : Bool
  embedRaises : Bool
  storeRoutingOk : Bool
  storeOutcomeOk : Bool

/-- Environment of one `process_query_internal` call. -/
structure Env where
  qdrant : Option QdrantEnv
  health : String → ℕ → Bool
  execRes : String → ExecResult
  states0 : States
  latencyUnavailable : ℕ
  latencyFinal : ℕ
  queryId : String

/-- The routing-tier variables after the cascade: `route_type`,
`route_confidence`, `tool_selected`, `exec_layer`. -/
structure RouteSel where
  rt : Option RouteType
  conf : ℚ
  tool : Option String
  layer : Option String
deriving DecidableEq

/-- Python truthiness test `not exec_layer` for an optional string:
`None` and the empty string are falsy. -/
def pyFalsyStr : Option String → Bool
  | none => true
  | some s => s.length == 0

/--
Tiers 1-4 of the cascade (lines 480-537): keyword match wins with
confidence `0.95`; otherwise, when the learning client exists, a qualifying
similar route wins with confidence `similarity * success_rate`; when the
chosen layer is still falsy the reasoning tier picks `reasoning-slm` or
`reasoning-classifier` (leaving confidence and tool untouched).
-/
def route_select (q : List Char) (qdrant : Option QdrantEnv) : RouteSel :=
  let rule := classify ROUTING_RULES q
  let t1 : RouteSel :=
    match rule with
    | some r =>
      { rt := some .keyword, conf := 95 / 100, tool := some r.tool,
        layer := some ("execution-unifi-" ++ r.execution) }
    | none => { rt := none, conf := 0, tool := none, layer := none }
  let t2 : RouteSel :=
    match rule, qdrant with
    | none, some qe =>
      let similar :=
        if qe.findRaises then none
        else find_similar_route qe.inited qe.config none qe.searchResp
      match similar with
      | some s =>
        { rt := some .similarity, conf := s.similarity * s.success_rate,
          tool := some s.tool, layer := some s.execution_layer }
      | none => t1
    | _, _ => t1
  if pyFalsyStr t2.layer then
    if needs_reasoning q then
      { t2 with rt := some .slm, layer := some "reasoning-slm" }
    else
      { t2 with rt := some .classifier, layer := some "reasoning-classifier" }
  else t2

/-- The execution layer the cascade settles on (always truthy after the
reasoning tier). -/
def chosen_layer (q : List Char) (env : Env) : String :=
  (route_select q env.qdrant).layer.getD ""

/--
The execution phase (lines 571-653): wake the chosen layer; on failure
return the layer-unavailable error response; otherwise record the
(dead) `WARMING` cold-start check, dispatch by layer-name prefix and build
the final response.  Learning-store writes cannot reach the response: the
source wraps them in `try/except` and discards their results.
-/
def exec_phase (q : List Char) (env : Env) : QueryResponse :=
  let sel := route_select q env.qdrant
  let layer := sel.layer.getD ""
  let e := ensure_ready env.health layer env.states0
  if e.1 = false then
    { success := false, result := none,
      error := some ("Layer " ++ layer ++ " failed to become ready"),
      layers_activated := [], latency_ms := env.latencyUnavailable,
      cold_starts := [], query_id := some env.queryId,
      route_type := sel.rt, route_confidence := sel.conf }
  else
    let stAfter := e.2.1
    let cold_starts := if stAfter layer = .warming then [layer] else []
    let isExec := isPre (w "execution-unifi-") layer.toList
    let outcome :=
      match env.execRes layer with
      | .raises msg => ((false : Bool), (none : Option RBody), some msg)
      | .responds status body =>
        if isExec then (status == 200, some (RBody.execBody body), none)
        else (true, some (RBody.reasoningWrapped body), none)
    { success := outcome.1, result := outcome.2.1, error := outcome.2.2,
      layers_activated := [layer], latency_ms := env.latencyFinal,
      cold_starts := cold_starts, query_id := some env.queryId,
      route_type := sel.rt, route_confidence := sel.conf }

/-- `process_query_internal`: the full cascade plus execution. -/
def process_query_internal (q : List Char) (env : Env) : QueryResponse :=
  exec_phase q env

/-- Replace the learning-store call outcomes of the environment (the
outcomes the source discards after catching their failures). -/
def withStoreOutcomes (env : Env) (embedRaises storeRoutingOk storeOutcomeOk : Bool) : Env :=
  { env with
    qdrant := env.qdrant.map fun qe =>
      { qe with embedRaises := embedRaises, storeRoutingOk := storeRoutingOk,
                storeOutcomeOk := storeOutcomeOk } }

/-! ## Concrete scenario environments -/

/-- A states map with every layer cold (the `LayerManager.__init__` map). -/
def statesAllCold : States := fun _ => .cold

/-- A health oracle that never returns HTTP 200. -/
def healthNever : String → ℕ → Bool := fun _ _ => false

/-- The scenario query `list all devices` (Tier-1 match on the
`(list|show|get).*device` rule). -/
def qListDevices : List Char := w "list all devices"

/-- A query that matches no routing rule and no reasoning keyword. -/
def qWifiUp : List Char := w "is the office wifi up"

/-- End-to-end scenario environment: no learning client, the execution
layer is cold at the initial check and warm from the first poll on, and
the backend call returns HTTP 200. -/
def envColdStart : Env :=
  { qdrant := none, health := fun _ k => k != 0,
    execRes := fun _ => .responds 200 "ok",
    states0 := statesAllCold, latencyUnavailable := 0, latencyFinal := 5,
    queryId := "q9" }

/-- Counterexample environment: layer warm immediately, backend returns
HTTP 500 with a decodable body and no exception. -/
def envStatus500 : Env :=
  { qdrant := none, health := fun _ _ => true,
    execRes := fun _ => .responds 500 "err",
    states0 := statesAllCold, latencyUnavailable := 0, latencyFinal := 7,
    queryId := "q2" }

/-- The Tier-2 similarity candidate of the gating scenario:
`similarity = 0.95`, `success_rate = 0.9` and the given sample count. -/
def candidate (sample_count : ℕ) : SearchResult :=
  { id := "p1", score := 95 / 100,
    payload := { query_id := some "past-1", query_text := some "show every device",
                 route_type := some "keyword", tool := some "get_devices",
                 execution_layer := some "execution-unifi-api",
                 success_rate := some (9 / 10), sample_count := some sample_count,
                 avg_latency_ms := some 120 } }

/-- The `SimilarRoute` the selection loop builds from `candidate 5`. -/
def gatingRoute : SimilarRoute :=
  { query_id := "past-1", query_text := "show every device",
    similarity := 95 / 100, route_type := .keyword,
    tool := "get_devices", execution_layer := "execution-unifi-api",
    success_rate := 9 / 10, sample_count := 5, avg_latency_ms := 120 }

/-- A learning client whose search returns exactly the gating candidate. -/
def qdrantWithCandidate (sample_count : ℕ) : QdrantEnv :=
  { inited := true, config := defaultConfig,
    searchResp := .ok [candidate sample_count],
    findRaises := false, embedRaises := false, storeRoutingOk := true,
    storeOutcomeOk := true }

/-- Gating scenario environment: learning client active with one search
candidate, layers warm, backend succeeds. -/
def envSimilarity (sample_count : ℕ) : Env :=
  { qdrant := some (qdrantWithCandidate sample_count),
    health := fun _ _ => true,
    execRes := fun _ => .responds 200 "ok",
    states0 := statesAllCold, latencyUnavailable := 0, latencyFinal := 11,
    queryId := "q3" }

/-- A plain environment: no learning client, all layers warm, backend
returns HTTP 200. -/
def envPlain : Env :=
  { qdrant := none, health := fun _ _ => true,
    execRes := fun _ => .responds 200 "ok",
    states0 := statesAllCold, latencyUnavailable := 0, latencyFinal := 3,
    queryId := "q1" }

/-- An environment whose backend call raises. -/
def envRaises : Env :=
  { qdrant := none, health := fun _ _ => true,
    execRes := fun _ => .raises "boom",
    states0 := statesAllCold, latencyUnavailable := 0, latencyFinal := 4,
    queryId := "qr" }

/-! # Theorems -/

/-- Both branches of the execution phase copy `route_type` and
`route_confidence` verbatim from the cascade selection, so the response
always reports the tier that was chosen. -/
theorem process_route_fields (q : List Char) (env : Env) :
    (process_query_internal q env).route_type = (route_select q env.qdrant).rt
    ∧ (process_query_internal q env).route_confidence
        = (route_select q env.qdrant).conf := by
  constructor <;>
    · simp only [process_query_internal, exec_phase]
      split <;> rfl

/-- When Tier 1 matched a rule, the whole cascade selection is the rule
route: type keyword, confidence `0.95`, the rule tool and the
`execution-unifi-` layer of the rule, independent of the learning client. -/
theorem route_select_keyword (q : List Char) (qd : Option QdrantEnv)
    (r : RoutingRule) (h : classify ROUTING_RULES q = some r) :
    route_select q qd
      = { rt := some .keyword, conf := 95 / 100, tool := some r.tool,
          layer := some ("execution-unifi-" ++ r.execution) } := by
  have h16 : "execution-unifi-".length = 16 := rfl
  have hlen : ("execution-unifi-" ++ r.execution).length
      = 16 + r.execution.length := by
    rw [String.length_append, h16]
  have hfal : pyFalsyStr (some ("execution-unifi-" ++ r.execution)) = false := by
    simp [pyFalsyStr, hlen]
  cases qd with
  | none => simp [route_select, h, hfal]
  | some qe => simp [route_select, h, hfal]

/-- An empty search response never yields a similar route. -/
theorem find_similar_route_ok_nil (inited : Bool) (cfg : QdrantConfig)
    (minSR : Option ℚ) :
    find_similar_route inited cfg minSR (.ok []) = none := by
  cases inited <;> simp [find_similar_route, pickFirst]

/-- A failed search call never yields a similar route. -/
theorem find_similar_route_error (inited : Bool) (cfg : QdrantConfig)
    (minSR : Option ℚ) (e : Unit) :
    find_similar_route inited cfg minSR (.error e) = none := by
  cases inited <;> simp [find_similar_route]

/-- The response depends on the environment only through the cascade
selection and the non-learning fields. -/
theorem process_congr (q : List Char) (env env' : Env)
    (h1 : route_select q env.qdrant = route_select q env'.qdrant)
    (h2 : env.health = env'.health) (h3 : env.execRes = env'.execRes)
    (h4 : env.states0 = env'.states0)
    (h5 : env.latencyUnavailable = env'.latencyUnavailable)
    (h6 : env.latencyFinal = env'.latencyFinal)
    (h7 : env.queryId = env'.queryId) :
    process_query_internal q env = process_query_internal q env' := by
  simp only [process_query_internal, exec_phase, h1, h2, h3, h4, h5, h6, h7]

/--
C1: For every query whose text matches at least one configured routing
rule pattern, `process_query_internal` returns a response with
`route_type = keyword` (the rule-match tier) and `route_confidence = 0.95`,
for every environment — in particular regardless of whether the learning
store is available (`env.qdrant`) or any of its calls fail.
-/
theorem rule_match_implies_keyword_route (q : List Char) (env : Env)
    (h : (ROUTING_RULES.any fun r => ruleMatches r (lowerQ q)) = true) :
    (process_query_internal q env).route_type = some RouteType.keyword
    ∧ (process_query_internal q env).route_confidence = 95 / 100 := by
  obtain ⟨r, hr⟩ : ∃ r, classify ROUTING_RULES q = some r := by
    refine Option.isSome_iff_exists.mp ?_
    rw [classify, List.find?_isSome]
    obtain ⟨x, hx, hpx⟩ := List.any_eq_true.mp h
    exact ⟨x, hx, hpx⟩
  have hp := process_route_fields q env
  rw [route_select_keyword q env.qdrant r hr] at hp
  exact hp

/--
Witness for C1: the query `list all devices` matches the
`(list|show|get).*device` rule, and the response reports the keyword tier
with confidence `0.95`.
-/
theorem rule_match_implies_keyword_route_witness :
    (ROUTING_RULES.any fun r => ruleMatches r (lowerQ qListDevices)) = true
    ∧ (process_query_internal qListDevices envPlain).route_type
        = some RouteType.keyword
    ∧ (process_query_internal qListDevices envPlain).route_confidence
        = 95 / 100 :=
  ⟨by decide,
   (rule_match_implies_keyword_route qListDevices envPlain (by decide)).1,
   (rule_match_implies_keyword_route qListDevices envPlain (by decide)).2⟩

/--
C2 counterexample: when the backend execution call returns a non-success
HTTP status (500) without raising, the response has `success = false` but
`error = None` — so a returned-non-success `ExecutionError` does not carry
the non-null error string the claim asserts for it.
-/
theorem nonsuccess_status_error_none_cex :
    (process_query_internal qListDevices envStatus500).success = false
    ∧ (process_query_internal qListDevices envStatus500).error = none
    ∧ envStatus500.execRes (chosen_layer qListDevices envStatus500)
        = .responds 500 "err" := by
  refine ⟨by decide, by decide, rfl⟩

/--
C2 amended: every call returns a well-formed `QueryResponse` (by
construction of the model); a response with `success = false` and a
non-null `error` arises exactly when the wake wait failed
(LayerUnavailable) or the backend call raised; an *execution-layer*
backend call that returns a non-success status yields `success = false`
with `error = None` (the reasoning branch instead sets `success = True`
regardless of the status); an `error` is only ever paired with
`success = false`; and failures of the learning subsystem — the
decision/outcome stores and a failing or raising similarity lookup, which
behaves exactly like a lookup that found nothing — never alter the
response visible to the caller.
-/
theorem error_surface_amended (q : List Char) (env : Env) :
    ((process_query_internal q env).success = false
       ∧ (process_query_internal q env).error ≠ none
     ↔ ((ensure_ready env.health (chosen_layer q env) env.states0).1 = false
        ∨ ((ensure_ready env.health (chosen_layer q env) env.states0).1 = true
           ∧ ∃ msg, env.execRes (chosen_layer q env) = .raises msg)))
    ∧ ((process_query_internal q env).error ≠ none
        → (process_query_internal q env).success = false)
    ∧ (∀ (status : ℕ) (body : String),
        (ensure_ready env.health (chosen_layer q env) env.states0).1 = true
        → env.execRes (chosen_layer q env) = .responds status body
        → isPre (w "execution-unifi-") (chosen_layer q env).toList = true
        → status ≠ 200
        → (process_query_internal q env).success = false
          ∧ (process_query_internal q env).error = none)
    ∧ (∀ embedRaises storeRoutingOk storeOutcomeOk : Bool,
        process_query_internal q
            (withStoreOutcomes env embedRaises storeRoutingOk storeOutcomeOk)
          = process_query_internal q env)
    ∧ (∀ qe : QdrantEnv,
        process_query_internal q
            { env with qdrant := some { qe with findRaises := true } }
          = process_query_internal q
              { env with qdrant := some { qe with findRaises := false,
                                                  searchResp := .ok [] } }
        ∧ process_query_internal q
              { env with qdrant := some { qe with searchResp := .error () } }
            = process_query_internal q
                { env with qdrant := some { qe with searchResp := .ok [] } }) := by
  constructor
  · -- the error-surface biconditional
    simp only [process_query_internal, exec_phase, chosen_layer]
    by_cases he : (ensure_ready env.health
        ((route_select q env.qdrant).layer.getD "") env.states0).1 = false
    · rw [if_pos he]
      simp [he]
    · rw [if_neg he]
      have he' : (ensure_ready env.health
          ((route_select q env.qdrant).layer.getD "") env.states0).1 = true := by
        simpa using he
      cases hx : env.execRes ((route_select q env.qdrant).layer.getD "") with
      | raises msg => simp [he', hx]
      | responds status body =>
        simp only [hx]
        split <;> simp [he', hx]
  refine ⟨?_, ?_, ?_, ?_⟩
  · -- error implies failure
    simp only [process_query_internal, exec_phase]
    split
    · intro _
      rfl
    · cases hx : env.execRes ((route_select q env.qdrant).layer.getD "") with
      | raises msg => simp
      | responds status body =>
        simp only [hx]
        split <;> simp
  · -- an execution-layer non-success status: failure with a null error
    intro status body he hx hpre hstatus
    have he' : ¬ (ensure_ready env.health
        ((route_select q env.qdrant).layer.getD "") env.states0).1 = false := by
      simp only [chosen_layer] at he
      simp [he]
    have hpre' : isPre (w "execution-unifi-")
        ((route_select q env.qdrant).layer.getD "").data = true := hpre
    simp only [chosen_layer] at hx
    constructor <;>
      · simp only [process_query_internal, exec_phase]
        rw [if_neg he']
        simp [hx, hpre', hstatus]
  · -- store outcomes invisible
    intro embedRaises storeRoutingOk storeOutcomeOk
    refine process_congr q _ env ?_ rfl rfl rfl rfl rfl rfl
    cases hq : env.qdrant with
    | none => simp [withStoreOutcomes, hq]
    | some qe =>
      cases hcl : classify ROUTING_RULES q with
      | some r => simp [withStoreOutcomes, hq, route_select, hcl]
      | none => simp [withStoreOutcomes, hq, route_select, hcl]
  · -- a raising or failing similarity lookup behaves like a miss
    intro qe
    constructor <;>
      · refine process_congr q _ _ ?_ rfl rfl rfl rfl rfl rfl
        cases hcl : classify ROUTING_RULES q with
        | some r => simp [route_select, hcl]
        | none =>
          simp [route_select, hcl, find_similar_route_ok_nil,
            find_similar_route_error]

/--
Witness for the amended C2 at concrete inputs: in an environment whose
backend call raises, the theorem yields `success = false`; and in an
environment whose execution-layer call returns HTTP 500 without raising,
it yields `success = false` with `error = None`.
-/
theorem error_surface_amended_witness :
    (process_query_internal qListDevices envRaises).success = false
    ∧ (process_query_internal qListDevices envStatus500).success = false
    ∧ (process_query_internal qListDevices envStatus500).error = none :=
  ⟨(error_surface_amended qListDevices envRaises).2.1 (by decide),
   ((error_surface_amended qListDevices envStatus500).2.2.1 500 "err"
      (by decide) rfl (by decide) (by decide)).1,
   ((error_surface_amended qListDevices envStatus500).2.2.1 500 "err"
      (by decide) rfl (by decide) (by decide)).2⟩

/--
C3: With the default thresholds (similarity 0.92, min success rate 0.8,
min samples 3), the search candidate with `similarity = 0.95`,
`success_rate = 0.9`, `sample_count = 5` is selected as the `SimilarRoute`
and the cascade answers with `route_type = similarity` and
`route_confidence = 0.95 * 0.9` (Tier 3/4 skipped); the otherwise
identical candidate with `sample_count = 2` is rejected
(`find_similar_route` returns none) and the cascade falls through to the
reasoning tiers.
-/
theorem similarity_gating_scenario :
    find_similar_route true defaultConfig none (.ok [candidate 5]) = some gatingRoute
    ∧ (process_query_internal qWifiUp (envSimilarity 5)).route_type = some .similarity
    ∧ (process_query_internal qWifiUp (envSimilarity 5)).route_confidence
        = (95 / 100) * (9 / 10)
    ∧ find_similar_route true defaultConfig none (.ok [candidate 2]) = none
    ∧ (process_query_internal qWifiUp (envSimilarity 2)).route_type = some .classifier := by
  have hc : classify ROUTING_RULES qWifiUp = none := by decide
  have hnr : needs_reasoning qWifiUp = false := by decide
  have hf5 : find_similar_route true defaultConfig none (.ok [candidate 5])
      = some gatingRoute := by
    norm_num [find_similar_route, pickFirst, pyOrQ, candidate, defaultConfig,
      RouteType.ofString, gatingRoute]
  have hf2 : find_similar_route true defaultConfig none (.ok [candidate 2]) = none := by
    norm_num [find_similar_route, pickFirst, pyOrQ, candidate, defaultConfig]
  have hfal : pyFalsyStr (some "execution-unifi-api") = false := by decide
  have hsel5 : route_select qWifiUp (some (qdrantWithCandidate 5))
      = { rt := some .similarity, conf := (95 / 100) * (9 / 10),
          tool := some "get_devices", layer := some "execution-unifi-api" } := by
    simp only [route_select, qdrantWithCandidate, hc, hf5]
    norm_num [gatingRoute, hfal]
  have hsel2 : route_select qWifiUp (some (qdrantWithCandidate 2))
      = { rt := some .classifier, conf := 0, tool := none,
          layer := some "reasoning-classifier" } := by
    simp only [route_select, qdrantWithCandidate, hc, hf2]
    norm_num [pyFalsyStr, hnr]
  have h5 := process_route_fields qWifiUp (envSimilarity 5)
  have h2 := process_route_fields qWifiUp (envSimilarity 2)
  have hq5 : (envSimilarity 5).qdrant = some (qdrantWithCandidate 5) := rfl
  have hq2 : (envSimilarity 2).qdrant = some (qdrantWithCandidate 2) := rfl
  rw [hq5] at h5
  rw [hq2] at h2
  rw [hsel5] at h5
  rw [hsel2] at h2
  exact ⟨hf5, h5.1, h5.2, hf2, h2.1⟩

/--
C4: `_update_routing_stats` computes the online incremental mean
`new_count = old_count + 1`,
`new_success_rate = (old_success_rate * old_count + (1 if success else 0)) / new_count`,
`new_avg_latency = (old_avg_latency * old_count + latency_ms) / new_count`;
in particular, starting from `(success_rate = 1.0, sample_count = 1,
avg_latency_ms = 100)` and recording `(success = false, latency_ms = 300)`
yields exactly `(sample_count = 2, success_rate = 0.5,
avg_latency_ms = 200)`.
-/
theorem outcome_stats_update :
    (∀ (old_count : ℕ) (old_success_rate old_avg_latency : ℚ) (success : Bool)
        (latency_ms : ℚ),
      updated_stats old_count old_success_rate old_avg_latency success latency_ms
        = (old_count + 1,
           (old_success_rate * old_count + (if success then 1 else 0))
             / ((old_count + 1 : ℕ) : ℚ),
           (old_avg_latency * old_count + latency_ms) / ((old_count + 1 : ℕ) : ℚ)))
    ∧ updated_stats 1 1 100 false 300 = (2, 1 / 2, 200) := by
  exact ⟨fun _ _ _ _ _ => rfl, by norm_num [updated_stats]⟩

/-- The poll loop succeeds within `fuel` further checks starting at index
`k` exactly when some check with index in `[k, k + fuel)` returns 200. -/
theorem waitPoll_true_iff (health : String → ℕ → Bool) (n : String)
    (hk : knownLayer n = true) :
    ∀ (fuel k : ℕ) (st : States),
      (waitPoll health n fuel k st).1 = true ↔
        ∃ j, k ≤ j ∧ j < k + fuel ∧ health n j = true := by
  intro fuel
  induction fuel with
  | zero =>
    intro k st
    simp only [waitPoll]
    constructor
    · intro h
      exact absurd h (by simp)
    · rintro ⟨j, h1, h2, _⟩
      omega
  | succ m ih =>
    intro k st
    by_cases hh : health n k = true
    · have hred : waitPoll health n (m + 1) k st = (true, setState st n .warm, 0) := by
        simp [waitPoll, check_health, hk, hh]
      rw [hred]
      exact iff_of_true rfl ⟨k, le_refl k, by omega, hh⟩
    · simp only [Bool.not_eq_true] at hh
      have hred : (waitPoll health n (m + 1) k st).1
          = (waitPoll health n m (k + 1) (setState st n .cold)).1 := by
        simp [waitPoll, check_health, hk, hh]
      rw [hred, ih (k + 1) (setState st n .cold)]
      constructor
      · rintro ⟨j, h1, h2, h3⟩
        exact ⟨j, by omega, by omega, h3⟩
      · rintro ⟨j, h1, h2, h3⟩
        refine ⟨j, ?_, by omega, h3⟩
        rcases Nat.lt_or_ge k j with hlt | hge
        · omega
        · have hjk : j = k := by omega
          rw [hjk] at h3
          rw [h3] at hh
          cases hh

/-- On a layer whose health checks all fail, the poll loop exhausts its
fuel: it returns false, sleeps for the whole window and leaves the layer
recorded as cold. -/
theorem waitPoll_never_healthy (health : String → ℕ → Bool) (n : String)
    (hk : knownLayer n = true) (hnever : ∀ j, health n j = false) :
    ∀ (fuel k : ℕ) (st : States),
      (waitPoll health n fuel k st).1 = false
      ∧ (waitPoll health n fuel k st).2.2 = fuel
      ∧ (1 ≤ fuel → ((waitPoll health n fuel k st).2.1) n = .cold) := by
  intro fuel
  induction fuel with
  | zero =>
    intro k st
    simp [waitPoll]
  | succ m ih =>
    intro k st
    have hred : waitPoll health n (m + 1) k st
        = ((waitPoll health n m (k + 1) (setState st n .cold)).1,
           (waitPoll health n m (k + 1) (setState st n .cold)).2.1,
           (waitPoll health n m (k + 1) (setState st n .cold)).2.2 + 1) := by
      simp [waitPoll, check_health, hk, hnever k]
    obtain ⟨h1, h2, h3⟩ := ih (k + 1) (setState st n .cold)
    rw [hred]
    refine ⟨h1, by rw [h2], fun _ => ?_⟩
    by_cases hm : 1 ≤ m
    · exact h3 hm
    · have hm0 : m = 0 := by omega
      subst hm0
      simp [waitPoll, setState]

/--
C5: `ensure_ready(layer)` returns true iff some health check of that layer
returns HTTP 200 within the timeout window (checks `0..60`: the immediate
probe plus one poll per second of the 60-second window); an already-warm
layer (first check 200) returns true immediately with no poll time; a
layer whose checks never return 200 yields false after exactly the
60-second timeout with its recorded state cold (hence not warm); a layer
with no known configuration yields false.
-/
theorem ensure_ready_spec (health : String → ℕ → Bool) (n : String) (st : States) :
    ((ensure_ready health n st).1 = true
       ↔ (knownLayer n = true ∧ ∃ k, k ≤ 60 ∧ health n k = true))
    ∧ (knownLayer n = true → health n 0 = true →
        ensure_ready health n st = (true, setState st n .warm, 0))
    ∧ (knownLayer n = true → (∀ j, health n j = false) →
        (ensure_ready health n st).1 = false
        ∧ (ensure_ready health n st).2.2 = 60
        ∧ ((ensure_ready health n st).2.1) n = .cold)
    ∧ (knownLayer n = false → (ensure_ready health n st).1 = false) := by
  by_cases hk : knownLayer n = true
  · by_cases h0 : health n 0 = true
    · have hred : ensure_ready health n st = (true, setState st n .warm, 0) := by
        simp [ensure_ready, check_health, hk, h0]
      refine ⟨?_, fun _ _ => hred, fun _ hnever => ?_, fun hk' => ?_⟩
      · rw [hred]
        exact iff_of_true rfl ⟨hk, 0, by omega, h0⟩
      · rw [hnever 0] at h0
        cases h0
      · rw [hk'] at hk
        cases hk
    · simp only [Bool.not_eq_true] at h0
      have hred : ensure_ready health n st
          = waitPoll health n 60 1 (setState (setState st n .cold) n .warming) := by
        simp [ensure_ready, check_health, hk, h0, wait_for_ready]
      refine ⟨?_, fun _ h0' => ?_, fun _ hnever => ?_, fun hk' => ?_⟩
      · rw [hred, waitPoll_true_iff health n hk]
        constructor
        · rintro ⟨j, h1, h2, h3⟩
          exact ⟨hk, j, by omega, h3⟩
        · rintro ⟨_, j, h1, h2⟩
          refine ⟨j, ?_, by omega, h2⟩
          rcases Nat.eq_zero_or_pos j with hj | hj
          · rw [hj] at h2
            rw [h2] at h0
            cases h0
          · omega
      · rw [h0'] at h0
        cases h0
      · obtain ⟨h1, h2, h3⟩ :=
          waitPoll_never_healthy health n hk hnever 60 1
            (setState (setState st n .cold) n .warming)
        rw [hred]
        exact ⟨h1, h2, h3 (by omega)⟩
      · rw [hk'] at hk
        cases hk
  · simp only [Bool.not_eq_true] at hk
    have hred : ensure_ready health n st = (false, st, 0) := by
      simp [ensure_ready, check_health, hk]
    refine ⟨?_, fun hk' _ => ?_, fun hk' _ => ?_, fun _ => ?_⟩
    · rw [hred]
      constructor
      · intro h
        exact absurd h (by simp)
      · rintro ⟨hk', _⟩
        rw [hk'] at hk
        cases hk
    · rw [hk'] at hk
      cases hk
    · rw [hk'] at hk
      cases hk
    · rw [hred]

/--
Witness for C5 at concrete inputs: the configured layer
`execution-unifi-api` under a health oracle that never returns 200 makes
`ensure_ready` fail after 60 seconds with the layer recorded cold, and an
unconfigured layer name fails outright.
-/
theorem ensure_ready_spec_witness :
    (ensure_ready healthNever "execution-unifi-api" statesAllCold).1 = false
    ∧ (ensure_ready healthNever "execution-unifi-api" statesAllCold).2.2 = 60
    ∧ ((ensure_ready healthNever "execution-unifi-api" statesAllCold).2.1)
        "execution-unifi-api" = .cold
    ∧ (ensure_ready healthNever "no-such-layer" statesAllCold).1 = false := by
  obtain ⟨h1, h2, h3⟩ :=
    (ensure_ready_spec healthNever "execution-unifi-api" statesAllCold).2.2.1
      (by decide) (fun j => rfl)
  exact ⟨h1, h2, h3,
    (ensure_ready_spec healthNever "no-such-layer" statesAllCold).2.2.2 (by decide)⟩

/--
C7 (code bug): the hash fallback of `EmbeddingClient` maps each digest
byte to one float, and `hashlib.sha384` digests have 48 bytes, so every
fallback pseudo-vector has 48 components — not the documented embedding
dimensionality 384 that the rest of the module (collection schema,
`[0.0] * 384` placeholder) relies on.
-/
theorem embed_fallback_dimension_bug :
    (∀ digest : List ℕ, (embed_fallback digest).length = digest.length)
    ∧ (embed_fallback (List.replicate sha384_digest_length 0)).length = 48
    ∧ sha384_digest_length ≠ embedding_dim := by
  have hlen : ∀ digest : List ℕ, (embed_fallback digest).length = digest.length :=
    fun digest => List.length_map _ _
  refine ⟨hlen, ?_, by decide⟩
  rw [hlen]
  decide

/--
C6: `score_complexity` is a pure function of the extracted features
(regex hits, length, question count, context size, entity count), each of
which is itself a pure function of `(text, context)`, so identical inputs
yield identical score and level; for every input the returned score lies
in `[0, 100]`; and the returned level equals the fixed-threshold map
(`≤ 25` simple, `≤ 50` moderate, `≤ 75` complex, else expert) applied to
the clamped score.
-/
theorem score_complexity_bounds_and_level (h : PatternHits)
    (length question_count : ℕ) (context_size : Option ℕ) (entity_count : ℕ) :
    0 ≤ (score_complexity h length question_count context_size entity_count).1
    ∧ (score_complexity h length question_count context_size entity_count).1 ≤ 100
    ∧ (score_complexity h length question_count context_size entity_count).2
        = level_of
            (score_complexity h length question_count context_size entity_count).1 := by
  refine ⟨?_, ?_, rfl⟩
  · simp only [score_complexity, clampScore]
    exact le_max_left 0 _
  · simp only [score_complexity, clampScore]
    exact max_le (by norm_num) (min_le_left 100 _)

/-- The negative-feedback payload patch is invisible to the candidate
selection loop: it changes no field that `pickFirst` reads. -/
theorem pickFirst_negative_feedback (minSuccess : ℚ) (minSamples : ℕ) :
    ∀ results : List SearchResult,
      pickFirst minSuccess minSamples
          (results.map fun r => { r with payload := apply_negative_feedback r.payload })
        = pickFirst minSuccess minSamples results := by
  intro results
  induction results with
  | nil => rfl
  | cons r rest ih =>
    simp only [apply_negative_feedback] at ih
    simp only [List.map_cons, pickFirst, apply_negative_feedback]
    rw [ih]

/--
C8 (code bug): on negative feedback, `record_feedback` patches the
decision payload with a *new* key `success_rate_adjustment = -0.1` and
leaves `success_rate` untouched; `find_similar_route` never reads that
key, so the success rate it consults — and hence the whole selection —
is unchanged by the penalty.
-/
theorem negative_feedback_no_effect_on_consulted_rate :
    (∀ p : Payload,
      (apply_negative_feedback p).success_rate = p.success_rate
      ∧ (apply_negative_feedback p).sample_count = p.sample_count
      ∧ (apply_negative_feedback p).success_rate_adjustment
          = some (-(1 / 10 : ℚ)))
    ∧ (∀ (inited : Bool) (cfg : QdrantConfig) (minSR : Option ℚ)
          (results : List SearchResult),
        find_similar_route inited cfg minSR
            (.ok (results.map fun r =>
              { r with payload := apply_negative_feedback r.payload }))
          = find_similar_route inited cfg minSR (.ok results)) := by
  refine ⟨fun p => ⟨rfl, rfl, rfl⟩, fun inited cfg minSR results => ?_⟩
  cases inited with
  | false => rfl
  | true => simp [find_similar_route, pickFirst_negative_feedback]

/--
C9 (code bug): in the end-to-end scenario — query `list all devices`
matches the Tier-1 `(list|show|get).*device` rule, the execution layer is
cold at the initial health check and warms during the wake wait, and the
backend call returns HTTP 200 — the response carries
`route_type = keyword` and `success = true`, but `cold_starts` is empty
even though the layer started cold: by the time `ensure_ready` returns,
`check_health` has already set the state to `warm`, so the
`states[exec_layer] == WARMING` test that would append the layer can never
fire.
-/
theorem cold_start_reporting_bug :
    (process_query_internal qListDevices envColdStart).route_type = some .keyword
    ∧ (process_query_internal qListDevices envColdStart).success = true
    ∧ (process_query_internal qListDevices envColdStart).layers_activated
        = ["execution-unifi-api"]
    ∧ envColdStart.health "execution-unifi-api" 0 = false
    ∧ (process_query_internal qListDevices envColdStart).cold_starts = [] := by
  decide

/--
C10: calling `find_similar_route` with an explicit `min_success_rate` of
`0.0` behaves identically to omitting the argument: Python evaluates
`min_success_rate or self.config.min_success_rate` and `0.0` is falsy, so
the trust threshold silently falls back to the configured default `0.8`.
-/
theorem min_success_rate_zero_falls_back :
    (∀ (inited : Bool) (cfg : QdrantConfig)
        (searchResp : Except Unit (List SearchResult)),
      find_similar_route inited cfg (some 0) searchResp
        = find_similar_route inited cfg none searchResp)
    ∧ (∀ cfg : QdrantConfig,
        pyOrQ (some 0) cfg.min_success_rate = cfg.min_success_rate)
    ∧ defaultConfig.min_success_rate = 8 / 10 := by
  refine ⟨fun inited cfg searchResp => ?_, fun cfg => by simp [pyOrQ], rfl⟩
  simp [find_similar_route, pyOrQ]

end Cortex
